import Mathlib

/-!
Verification of the Bitcoin-RPC orchestration script in `src/rust/src/main.rs`
of `ajcodes-git/rust-capstone-project`.

The script drives a regtest Bitcoin Core node over JSON-RPC: it ensures two
wallets exist, mines 103 blocks, sends 20 BTC from Miner to Trader, mines a
confirming block, extracts fields from the confirmed transaction (and from its
funding input's transaction), and writes a ten-line report to `../out.txt`.

We shallowly embed the JSON navigation and the extraction / classification /
report-writing logic.  JSON numbers are modelled as rationals (`Rat`): the
script only inspects them through `as_i64` / `as_u64` / `as_f64`, and the
claims settled here do not depend on IEEE-754 rounding.  The node itself is
external to the repository; where a claim needs node behaviour (block
generation, coinbase maturity) we model it from the spec and say so in the
doc comment of the definition.
-/

/-- A JSON value, mirroring `serde_json::Value`.  Numbers are rationals. -/
inductive Json where
  | null : Json
  | bool (b : Bool) : Json
  | num (q : Rat) : Json
  | str (s : String) : Json
  | arr (elems : List Json) : Json
  | obj (entries : List (String × Json)) : Json
deriving Repr

/-- Field lookup, mirroring `serde_json::Value::get(key)`: `some` value for a
present key of an object, `none` for a missing key or a non-object. -/
def Json.get : Json → String → Option Json
  | .obj entries, k => List.lookup k entries
  | _, _ => none

/-- Bracket indexing, mirroring `value[key]` on `serde_json::Value`, which
yields `Null` (never panics) when the key is absent or the value is not an
object. -/
def Json.idx (j : Json) (k : String) : Json :=
  (j.get k).getD .null

/-- Mirrors `Value::as_str`. -/
def Json.asStr : Json → Option String
  | .str s => some s
  | _ => none

/-- Mirrors `Value::as_array` (the script only reads the array, so we return
the element list). -/
def Json.asArr : Json → Option (List Json)
  | .arr elems => some elems
  | _ => none

/-- Mirrors `Value::as_f64`: any JSON number is available as a float.  We keep
the exact rational; the i64/u64-range refinements of serde are irrelevant to
the magnitudes this script handles. -/
def Json.asF64 : Json → Option Rat
  | .num q => some q
  | _ => none

/-- Mirrors `Value::as_i64`: succeeds exactly on integral numbers. -/
def Json.asI64 : Json → Option Int
  | .num q => if q.den = 1 then some q.num else none
  | _ => none

/-- Mirrors `Value::as_u64` followed by the script's `as usize`: succeeds
exactly on non-negative integral numbers. -/
def Json.asU64 : Json → Option Nat
  | .num q => if q.den = 1 && 0 ≤ q.num then some q.num.toNat else none
  | _ => none

/-- The in-memory report of `main.rs`: the ten values written to `../out.txt`
(lines 180-190 of the source). -/
structure Report where
  txid : String
  inputAddress : String
  inputAmount : Rat
  recipientAddress : String
  recipientAmount : Rat
  changeAddress : String
  changeAmount : Rat
  fee : Rat
  blockheight : Int
  blockhash : String
deriving Repr, DecidableEq

/-- Address resolution for the funding output (`main.rs` lines 133-148):
prefer `scriptPubKey.address` when it is a string; otherwise fall back to
`scriptPubKey.asm` as a string; otherwise the sentinel `"unknown"`. -/
def resolveAddress (vout_obj : Json) : String :=
  match (vout_obj.idx "scriptPubKey").get "address" with
  | some addr_val =>
    match addr_val.asStr with
    | some addr_str => addr_str
    | none => (((vout_obj.idx "scriptPubKey").idx "asm").asStr).getD "unknown"
  | none => (((vout_obj.idx "scriptPubKey").idx "asm").asStr).getD "unknown"

/-- The four mutable classification variables of `main.rs` lines 154-157. -/
structure OutAcc where
  traderAddr : String
  traderAmt : Rat
  changeAddr : String
  changeAmt : Rat
deriving Repr, DecidableEq

/-- One iteration of the output-classification loop (`main.rs` lines 159-177):
extract `value` as f64 and `scriptPubKey.address` as a string; if both are
usable, overwrite the recipient slot when the address equals the trader
address and the change slot otherwise (the source's `else if address !=
trader_address` is an `else`: its condition is the negation of the `if`). -/
def classifyStep (trader_address : String) (acc : OutAcc) (out : Json) : OutAcc :=
  match (out.get "value").bind Json.asF64 with
  | none => acc
  | some value =>
    match (out.idx "scriptPubKey").get "address" with
    | none => acc
    | some address_value =>
      match address_value.asStr with
      | none => acc
      | some address =>
        if address = trader_address then
          { acc with traderAddr := address, traderAmt := value }
        else
          { acc with changeAddr := address, changeAmt := value }

/-- The whole classification loop, starting from the initial values
`("", 0.0, "", 0.0)` of `main.rs` lines 154-157. -/
def classifyOutputs (trader_address : String) (vout : List Json) : OutAcc :=
  vout.foldl (classifyStep trader_address) ⟨"", 0, "", 0⟩

/-- Spec-side description of a recipient match: an output contributes to the
recipient slot when it has a numeric `value` and a string
`scriptPubKey.address` equal to the trader address. -/
def recMatch (trader_address : String) (out : Json) : Option (String × Rat) :=
  match (out.get "value").bind Json.asF64,
        ((out.idx "scriptPubKey").get "address").bind Json.asStr with
  | some value, some address =>
    if address = trader_address then some (address, value) else none
  | _, _ => none

/-- Spec-side description of a change match: numeric `value` and a string
address different from the trader address. -/
def chgMatch (trader_address : String) (out : Json) : Option (String × Rat) :=
  match (out.get "value").bind Json.asF64,
        ((out.idx "scriptPubKey").get "address").bind Json.asStr with
  | some value, some address =>
    if address = trader_address then none else some (address, value)
  | _, _ => none

/-- The last recipient match of the output list (spec §4.4: iterate all
outputs and keep the last match), phrased as the first match of the reversed
list. -/
def lastRec (trader_address : String) (vout : List Json) : Option (String × Rat) :=
  vout.reverse.findSome? (recMatch trader_address)

/-- The last change match of the output list. -/
def lastChg (trader_address : String) (vout : List Json) : Option (String × Rat) :=
  vout.reverse.findSome? (chgMatch trader_address)

/-- The scalar-with-default extractions plus the classification, applied once
the structural pieces (the decoded transaction, the funding output object and
the decoded output list) are in hand; `main.rs` lines 113-177. -/
def buildReport (tx_info input_vout_obj : Json) (vout : List Json)
    (txid trader_address : String) : Report :=
  { txid := txid
    inputAddress := resolveAddress input_vout_obj
    inputAmount := ((input_vout_obj.idx "value").asF64).getD 0
    recipientAddress := (classifyOutputs trader_address vout).traderAddr
    recipientAmount := (classifyOutputs trader_address vout).traderAmt
    changeAddress := (classifyOutputs trader_address vout).changeAddr
    changeAmount := (classifyOutputs trader_address vout).changeAmt
    fee := ((tx_info.idx "fee").asF64).getD 0
    blockheight := ((tx_info.idx "blockheight").asI64).getD 0
    blockhash := ((tx_info.idx "blockhash").asStr).getD "unknown" }

/-- The extraction stage, `main.rs` lines 109-177.  `oracle` models the
wallet's verbose `gettransaction` RPC: the script calls it once on the
confirmed txid and once on the first input's txid.  `none` models a panic:
the source calls `.unwrap()` on `decoded["vin"].as_array()`, on
`vin[0]["txid"].as_str()`, on `vin[0]["vout"].as_u64()`, on
`input_decoded["vout"].as_array()`, and indexes `input_vouts[input_vout]`
(a `Vec` index that panics out of bounds); every other field access has an
`unwrap_or` default. -/
def extractReport (oracle : String → Json) (txid trader_address : String) :
    Option Report :=
  ((((oracle txid).idx "decoded").idx "vin").asArr).bind fun vin =>
    (vin.get? 0).bind fun vin0 =>
      ((vin0.idx "txid").asStr).bind fun input_txid =>
        ((vin0.idx "vout").asU64).bind fun input_vout =>
          ((((oracle input_txid).idx "decoded").idx "vout").asArr).bind
            fun input_vouts =>
              (input_vouts.get? input_vout).bind fun input_vout_obj =>
                ((((oracle txid).idx "decoded").idx "vout").asArr).map fun vout =>
                  buildReport (oracle txid) input_vout_obj vout txid
                    trader_address

/-- The txid of the funding input, as the extraction stage derives it from the
first `gettransaction` response (`main.rs` lines 119-120): the second RPC call
of the extraction stage is made on this txid. -/
def fundingTxid (oracle : String → Json) (txid : String) : Option String :=
  ((((oracle txid).idx "decoded").idx "vin").asArr).bind fun vin =>
    (vin.get? 0).bind fun vin0 => (vin0.idx "txid").asStr

/-- The fixed output path of the report writer (`main.rs` line 180). -/
def outPath : String := "../out.txt"

/-- Mirrors one `writeln!` call: the written text followed by a newline.  We
work over `List Char` so that line structure can be reasoned about. -/
def writelnChunk (s : List Char) : List Char := s ++ ['\n']

/-- The ten texts written by `main.rs` lines 181-190, in source order.  The
two numeric renderers stand for Rust's `Display` of `f64` and `i64`; the
claims settled here do not depend on the digits they produce. -/
def reportTexts (renderF : Rat → List Char) (renderI : Int → List Char)
    (r : Report) : List (List Char) :=
  [r.txid.data, r.inputAddress.data, renderF r.inputAmount,
   r.recipientAddress.data, renderF r.recipientAmount,
   r.changeAddress.data, renderF r.changeAmount,
   renderF r.fee, renderI r.blockheight, r.blockhash.data]

/-- The full content of the freshly created (hence truncated) output file:
the concatenation of the ten `writeln!` chunks. -/
def fileContent (renderF : Rat → List Char) (renderI : Int → List Char)
    (r : Report) : List Char :=
  ((reportTexts renderF renderI r).map writelnChunk).flatten

/-- Splits a character list at newlines, like `String::splitOn` with a
one-character separator: `splitNl "a\nb\n" = [a, b, ""]`, so a text made of n
newline-terminated lines splits into those n lines followed by one empty
tail. -/
def splitNl : List Char → List (List Char)
  | [] => [[]]
  | c :: rest =>
    if c = '\n' then [] :: splitNl rest
    else
      match splitNl rest with
      | [] => [[c]]
      | l :: ls => (c :: l) :: ls

/-- Result of one generic RPC `call` in the wallet-setup loop. -/
inductive CallResult where
  | ok (v : Json) : CallResult
  | err (e : String) : CallResult
deriving Repr

/-- The RPC calls the wallet-setup loop can issue, recorded as a trace. -/
inductive WalletAction where
  | createCall (w : String) : WalletAction
  | loadCall (w : String) : WalletAction
deriving Repr, DecidableEq

/-- Mirrors Rust's `str::contains` substring test, used on the error text. -/
def hasSub (needle : List Char) : List Char → Bool
  | [] => needle.isPrefixOf []
  | c :: rest => needle.isPrefixOf (c :: rest) || hasSub needle rest

/-- Substring containment on `String`, the model of `e.to_string().contains(..)`. -/
def strContains (hay needle : String) : Bool :=
  hasSub needle.data hay.data

/-- One iteration of the wallet-setup loop (`main.rs` lines 52-61): attempt
`createwallet`; on an error whose text contains "already exists", issue
`loadwallet` and discard its result (the source's `let _ = ...`); on any
other error, panic (`none`).  The trace of issued calls is returned. -/
def ensureWallet (create load : String → CallResult) (w : String) :
    Option (List WalletAction) :=
  match create w with
  | .ok _ => some [.createCall w]
  | .err e =>
    if strContains e "already exists" then
      let _ := load w
      some [.createCall w, .loadCall w]
    else
      none

/-- The whole wallet-setup loop over `["Miner", "Trader"]`. -/
def ensureWallets (create load : String → CallResult) :
    Option (List WalletAction) :=
  (ensureWallet create load "Miner").bind fun a1 =>
    (ensureWallet create load "Trader").map fun a2 => a1 ++ a2

/-- Modelled from the spec: the regtest chain as seen by this script is the
list of coinbase reward addresses of the mined blocks, in order; the node's
`generatetoaddress` appends one entry per requested block (spec §6 names the
block-generation call; its schema is external to the repository). -/
def generateToAddress (n : Nat) (addr : String) (chain : List String) :
    List String :=
  chain ++ List.replicate n addr

/-- Modelled from the spec: coinbase maturity (spec glossary and §4.2) - a
coinbase reward is spendable only once at least 100 further blocks sit on
top of its block. -/
def coinbaseMaturity : Nat := 100

/-- Modelled from the spec: the regtest block subsidy credited to the miner
per block; any positive constant serves, we use the canonical 50. -/
def blockSubsidy : Rat := 50

/-- Modelled from the spec: the wallet balance the node reports for `addr` -
the subsidies of the blocks mined to `addr` that have matured (at least
`coinbaseMaturity` blocks on top). -/
def minerBalance (chain : List String) (addr : String) : Rat :=
  blockSubsidy *
    (((List.range chain.length).filter fun i =>
      decide (chain.get? i = some addr) &&
      decide (i + coinbaseMaturity < chain.length)).length : Nat)

/-- The funding stage of `main.rs` (lines 88-91): a single
`generate_to_address` call for 103 blocks to the Miner wallet's mining
address. -/
def fundingStage (addr : String) (chain : List String) : List String :=
  generateToAddress 103 addr chain

/-- The run up to and including the funding stage: the wallet-setup loop,
then - only if it did not panic - the mining of the 103 blocks.  `none`
means the run aborted before the funding stage. -/
def runSetup (create load : String → CallResult) (addr : String)
    (chain : List String) : Option (List String) :=
  (ensureWallets create load).map fun _ => fundingStage addr chain

/-! Concrete fixtures used by witness and counterexample theorems. -/

/-- A funding output carrying a structured address and a value. -/
def prevOut : Json :=
  .obj [("scriptPubKey", .obj [("address", .str "miner-addr")]),
        ("value", .num 50)]

/-- The verbose `gettransaction` response for the funding transaction. -/
def prevTxJson : Json :=
  .obj [("decoded", .obj [("vout", .arr [prevOut])])]

/-- An output paying the trader address. -/
def traderOut : Json :=
  .obj [("scriptPubKey", .obj [("address", .str "trader-addr")]),
        ("value", .num 20)]

/-- An output paying some other address (change). -/
def changeOut : Json :=
  .obj [("scriptPubKey", .obj [("address", .str "change-addr")]),
        ("value", .num (2999/100 : Rat))]

/-- The verbose `gettransaction` response for the confirmed transaction, with
every field the extraction stage touches present. -/
def mainTxJson : Json :=
  .obj [("decoded",
          .obj [("vin", .arr [.obj [("txid", .str "prevtx"), ("vout", .num 0)]]),
                ("vout", .arr [traderOut, changeOut])]),
        ("blockheight", .num 104),
        ("blockhash", .str "hash-104"),
        ("fee", .num (-141/1000000 : Rat))]

/-- An RPC oracle with fully-populated responses. -/
def goodOracle : String → Json :=
  fun s => if s = "prevtx" then prevTxJson else mainTxJson

/-- An RPC oracle agreeing with `goodOracle` on every txid the extraction
stage queries, but differing elsewhere. -/
def goodOracle2 : String → Json :=
  fun s => if s = "unrelated" then .null else goodOracle s

/-- The confirmed transaction with all structural fields present but without
`blockheight`, `blockhash`, `fee` - and an empty output list. -/
def bareTxJson : Json :=
  .obj [("decoded",
          .obj [("vin", .arr [.obj [("txid", .str "prevtx0"), ("vout", .num 0)]]),
                ("vout", .arr [])])]

/-- A funding transaction whose indexed output is an empty object: no
`value`, no `scriptPubKey`. -/
def barePrevJson : Json :=
  .obj [("decoded", .obj [("vout", .arr [.obj []])])]

/-- An RPC oracle whose responses have the structural fields but none of the
defaulted scalar fields. -/
def bareOracle : String → Json :=
  fun s => if s = "prevtx0" then barePrevJson else bareTxJson

/-- An output with an `asm` string but no `address` field. -/
def asmOut : Json :=
  .obj [("scriptPubKey", .obj [("asm", .str "OP_DUP OP_HASH160")])]

/-- An output lacking a `value` field: the classification loop must skip it. -/
def sampleBadOut : Json :=
  .obj [("scriptPubKey", .obj [("address", .str "a1")])]

/-- A well-formed non-recipient output. -/
def sampleOut : Json :=
  .obj [("scriptPubKey", .obj [("address", .str "a1")]), ("value", .num 7)]

/-- A concrete report for the report-writer witness. -/
def sampleReport : Report :=
  { txid := "txid-w", inputAddress := "in-addr", inputAmount := 1
    recipientAddress := "rec-addr", recipientAmount := 2
    changeAddress := "chg-addr", changeAmount := 3
    fee := 4, blockheight := 5, blockhash := "bh-w" }

/-- A newline-free stand-in for the `f64` renderer. -/
def sampleRenderF : Rat → List Char := fun _ => ['0']

/-- A newline-free stand-in for the `i64` renderer. -/
def sampleRenderI : Int → List Char := fun _ => ['0']

/-- A `createwallet` stub failing with an "already exists" error text. -/
def createAE : String → CallResult := fun _ => .err "Wallet file already exists."

/-- A `createwallet` stub failing with an unrelated error text. -/
def createBad : String → CallResult := fun _ => .err "connection refused"

/-- A `loadwallet` stub that succeeds. -/
def loadOk : String → CallResult := fun _ => .ok .null

/-! Helper lemmas shared by several claims. -/

/-- One loop iteration, rephrased through the match descriptions: it
overwrites each slot with the output's match when there is one and keeps the
accumulator otherwise. -/
theorem classifyStep_eq (trader : String) (acc : OutAcc) (o : Json) :
    classifyStep trader acc o =
      { traderAddr := ((recMatch trader o).getD (acc.traderAddr, acc.traderAmt)).1
        traderAmt := ((recMatch trader o).getD (acc.traderAddr, acc.traderAmt)).2
        changeAddr := ((chgMatch trader o).getD (acc.changeAddr, acc.changeAmt)).1
        changeAmt := ((chgMatch trader o).getD (acc.changeAddr, acc.changeAmt)).2 } := by
  unfold classifyStep recMatch chgMatch
  cases hv : (o.get "value").bind Json.asF64 with
  | none => rfl
  | some value =>
    cases ha : (o.idx "scriptPubKey").get "address" with
    | none => rfl
    | some address_value =>
      cases hs : address_value.asStr with
      | none => simp [hs, Option.bind]
      | some address =>
        by_cases he : address = trader <;> simp [hs, he, Option.bind]

/-- The loop computes, in each slot, the last match of the traversed list,
with the initial accumulator as the default. -/
theorem classifyOutputs_foldl (trader : String) (vout : List Json) :
    ∀ acc : OutAcc,
      vout.foldl (classifyStep trader) acc =
        { traderAddr :=
            ((vout.reverse.findSome? (recMatch trader)).getD
              (acc.traderAddr, acc.traderAmt)).1
          traderAmt :=
            ((vout.reverse.findSome? (recMatch trader)).getD
              (acc.traderAddr, acc.traderAmt)).2
          changeAddr :=
            ((vout.reverse.findSome? (chgMatch trader)).getD
              (acc.changeAddr, acc.changeAmt)).1
          changeAmt :=
            ((vout.reverse.findSome? (chgMatch trader)).getD
              (acc.changeAddr, acc.changeAmt)).2 } := by
  induction vout with
  | nil => intro acc; rfl
  | cons o rest ih =>
    intro acc
    rw [List.foldl_cons, ih (classifyStep trader acc o), classifyStep_eq]
    simp only [List.reverse_cons, List.findSome?_append]
    cases hr : rest.reverse.findSome? (recMatch trader) <;>
      cases hc : rest.reverse.findSome? (chgMatch trader) <;>
        cases hro : recMatch trader o <;>
          cases hco : chgMatch trader o <;>
            simp [List.findSome?_cons, hro, hco, Option.or]

/-- An output without a usable `value` or a usable string address leaves the
accumulator untouched. -/
theorem classifyStep_skip (trader : String) (acc : OutAcc) (bad : Json)
    (h : (bad.get "value").bind Json.asF64 = none ∨
         ((bad.idx "scriptPubKey").get "address").bind Json.asStr = none) :
    classifyStep trader acc bad = acc := by
  unfold classifyStep
  rcases h with h | h
  · simp [h]
  · cases hv : (bad.get "value").bind Json.asF64 with
    | none => rfl
    | some value =>
      cases ha : (bad.idx "scriptPubKey").get "address" with
      | none => rfl
      | some av =>
        have hs : av.asStr = none := by simpa [ha, Option.bind] using h
        simp [hs]

/-- C2: the classification loop folds over every output; an output whose
string address equals the trader address overwrites the recipient slot with
its address and value, one with any other string address overwrites the
change slot, later matches overwrite earlier ones (each slot holds the last
match), and an output lacking a numeric value or a string address is skipped
without affecting either slot. -/
theorem C2_output_classification (trader : String) (vout : List Json) :
    classifyOutputs trader vout =
      { traderAddr := ((lastRec trader vout).getD ("", 0)).1
        traderAmt := ((lastRec trader vout).getD ("", 0)).2
        changeAddr := ((lastChg trader vout).getD ("", 0)).1
        changeAmt := ((lastChg trader vout).getD ("", 0)).2 } ∧
    ∀ pre post bad,
      ((bad.get "value").bind Json.asF64 = none ∨
       ((bad.idx "scriptPubKey").get "address").bind Json.asStr = none) →
      classifyOutputs trader (pre ++ bad :: post) =
        classifyOutputs trader (pre ++ post) := by
  constructor
  · exact classifyOutputs_foldl trader vout ⟨"", 0, "", 0⟩
  · intro pre post bad h
    unfold classifyOutputs
    rw [List.foldl_append, List.foldl_append, List.foldl_cons,
        classifyStep_skip trader _ bad h]

/-- Witness for C2: a value-less output is skipped, and a two-output
transaction is classified with the recipient and change amounts of the
matching outputs. -/
theorem C2_witness :
    classifyOutputs "trader-addr" [sampleBadOut, sampleOut] =
      classifyOutputs "trader-addr" [sampleOut] ∧
    classifyOutputs "trader-addr" [traderOut, changeOut] =
      { traderAddr := "trader-addr", traderAmt := 20
        changeAddr := "change-addr", changeAmt := (2999/100 : Rat) } := by
  constructor
  · exact (C2_output_classification "trader-addr" [sampleBadOut, sampleOut]).2
      [] [sampleOut] sampleBadOut (Or.inl rfl)
  · rw [(C2_output_classification "trader-addr" [traderOut, changeOut]).1]
    rfl

/-- C3: the funding-output address resolution prefers the structured
`scriptPubKey.address` string; when that field is absent or not a string it
falls back to the `scriptPubKey.asm` string; only when neither is usable
does it produce the sentinel "unknown". -/
theorem C3_address_resolution (o : Json) :
    (∀ a s, (o.idx "scriptPubKey").get "address" = some a → a.asStr = some s →
      resolveAddress o = s) ∧
    (∀ t, ((o.idx "scriptPubKey").get "address" = none ∨
        ∃ a, (o.idx "scriptPubKey").get "address" = some a ∧ a.asStr = none) →
      ((o.idx "scriptPubKey").idx "asm").asStr = some t → resolveAddress o = t) ∧
    (((o.idx "scriptPubKey").get "address" = none ∨
        ∃ a, (o.idx "scriptPubKey").get "address" = some a ∧ a.asStr = none) →
      ((o.idx "scriptPubKey").idx "asm").asStr = none →
      resolveAddress o = "unknown") := by
  refine ⟨?_, ?_, ?_⟩
  · intro a s ha hs
    unfold resolveAddress
    rw [ha]
    simp [hs]
  · intro t h ht
    unfold resolveAddress
    rcases h with h | ⟨a, ha, hs⟩
    · rw [h]; simp [ht]
    · rw [ha]; simp [hs, ht]
  · intro h ht
    unfold resolveAddress
    rcases h with h | ⟨a, ha, hs⟩
    · rw [h]; simp [ht]
    · rw [ha]; simp [hs, ht]

/-- Witness for C3: an output with only an `asm` string resolves to it, an
empty object resolves to "unknown", and a structured address wins. -/
theorem C3_witness :
    resolveAddress asmOut = "OP_DUP OP_HASH160" ∧
    resolveAddress (Json.obj []) = "unknown" ∧
    resolveAddress prevOut = "miner-addr" :=
  ⟨(C3_address_resolution asmOut).2.1 "OP_DUP OP_HASH160" (Or.inl rfl) rfl,
   (C3_address_resolution (Json.obj [])).2.2 (Or.inl rfl) rfl,
   (C3_address_resolution prevOut).1 (Json.str "miner-addr") "miner-addr" rfl rfl⟩

/-- Success characterization of the extraction stage: when the five
structural accesses succeed, extraction returns exactly the report built by
the defaulted field extractions - no scalar field can make it abort. -/
theorem extractReport_eq_some (oracle : String → Json) (txid trader : String)
    (vin : List Json) (vin0 : Json) (itxid : String) (ivout : Nat)
    (ivouts : List Json) (ivobj : Json) (vout : List Json)
    (h1 : (((oracle txid).idx "decoded").idx "vin").asArr = some vin)
    (h2 : vin.get? 0 = some vin0)
    (h3 : (vin0.idx "txid").asStr = some itxid)
    (h4 : (vin0.idx "vout").asU64 = some ivout)
    (h5 : (((oracle itxid).idx "decoded").idx "vout").asArr = some ivouts)
    (h6 : ivouts.get? ivout = some ivobj)
    (h7 : (((oracle txid).idx "decoded").idx "vout").asArr = some vout) :
    extractReport oracle txid trader =
      some (buildReport (oracle txid) ivobj vout txid trader) := by
  unfold extractReport
  simp only [h1, Option.some_bind, h2, h3, h4, h5, h6, h7, Option.map_some']

/-- C1: the claim that every field access of the extraction stage recovers a
missing or unexpected field with a sentinel default fails on the code: the
accesses to the decoded vin array, the first input's txid and vout index,
the funding transaction's decoded vout array and the indexed funding output
are unwrapped and abort when unavailable.  With this RPC response shape (an
object with no fields) extraction takes the panic branch. -/
theorem C1_counterexample :
    extractReport (fun _ => Json.obj []) "some-txid" "trader-addr" = none := rfl

/-- C1 (amended): during extraction, every scalar field access (blockheight,
blockhash, fee, funding-output address and asm, funding-output value, and the
classified outputs' value and address) is recovered by a sentinel default and
can never abort - whenever the five structural accesses (decoded vin array,
first input's txid and vout index, funding transaction's decoded vout array,
indexed funding output) succeed, extraction returns a report; but a missing
structural field, such as the decoded vin array, does abort. -/
theorem C1_extraction_panic_boundary (oracle : String → Json)
    (txid trader : String) :
    (∀ vin vin0 itxid ivout ivouts ivobj vout,
      (((oracle txid).idx "decoded").idx "vin").asArr = some vin →
      vin.get? 0 = some vin0 →
      (vin0.idx "txid").asStr = some itxid →
      (vin0.idx "vout").asU64 = some ivout →
      (((oracle itxid).idx "decoded").idx "vout").asArr = some ivouts →
      ivouts.get? ivout = some ivobj →
      (((oracle txid).idx "decoded").idx "vout").asArr = some vout →
      extractReport oracle txid trader =
        some (buildReport (oracle txid) ivobj vout txid trader)) ∧
    ((((oracle txid).idx "decoded").idx "vin").asArr = none →
      extractReport oracle txid trader = none) := by
  constructor
  · intro vin vin0 itxid ivout ivouts ivobj vout h1 h2 h3 h4 h5 h6 h7
    exact extractReport_eq_some oracle txid trader vin vin0 itxid ivout ivouts
      ivobj vout h1 h2 h3 h4 h5 h6 h7
  · intro h
    unfold extractReport
    simp only [h, Option.none_bind]

/-- Witness for C1 (amended): a fully structural response extracts to a
report, and a response whose decoded form has no vin array aborts. -/
theorem C1_witness :
    extractReport goodOracle "c1-txid" "trader-addr" =
      some (buildReport (goodOracle "c1-txid") prevOut [traderOut, changeOut]
        "c1-txid" "trader-addr") ∧
    extractReport (fun _ => Json.arr []) "c1-txid" "trader-addr" = none := by
  constructor
  · exact (C1_extraction_panic_boundary goodOracle "c1-txid" "trader-addr").1
      [Json.obj [("txid", .str "prevtx"), ("vout", .num 0)]]
      (Json.obj [("txid", .str "prevtx"), ("vout", .num 0)])
      "prevtx" 0 [prevOut] prevOut [traderOut, changeOut]
      rfl rfl rfl rfl rfl rfl rfl
  · exact (C1_extraction_panic_boundary (fun _ => Json.arr [])
      "c1-txid" "trader-addr").2 rfl

/-- Splitting after one newline-terminated chunk peels off exactly that line
when the line itself has no newline. -/
theorem splitNl_writeln (a rest : List Char) (h : '\n' ∉ a) :
    splitNl (writelnChunk a ++ rest) = a :: splitNl rest := by
  induction a with
  | nil => simp [writelnChunk, splitNl]
  | cons c cs ih =>
    have hc : ¬ (c = '\n') := fun e => h (by simp [e])
    have hcs : '\n' ∉ cs := fun m => h (by simp [m])
    have ih2 := ih hcs
    simp only [writelnChunk, List.cons_append] at ih2 ⊢
    simp only [splitNl]
    rw [if_neg hc, ih2]

/-- A text made of newline-terminated lines, none containing a newline,
splits into exactly those lines followed by the empty tail. -/
theorem splitNl_flatten (lines : List (List Char))
    (h : ∀ l ∈ lines, '\n' ∉ l) :
    splitNl ((lines.map writelnChunk).flatten) = lines ++ [[]] := by
  induction lines with
  | nil => simp [splitNl]
  | cons a rest ih =>
    have ha : '\n' ∉ a := h a (by simp)
    have hr : ∀ l ∈ rest, '\n' ∉ l := fun l m => h l (by simp [m])
    simp only [List.map_cons, List.flatten_cons]
    rw [splitNl_writeln a _ ha, ih hr]
    rfl

/-- C4: whenever the report-writing step runs, the file at the fixed path
`../out.txt` is created (truncating any previous content) and its content
consists of exactly ten newline-terminated lines carrying, in this fixed
order: transaction id, input address, input amount, recipient address,
recipient amount, change address, change amount, fee, block height, block
hash - for every report, hence regardless of which fields fell back to
defaults (the only proviso is that the written texts contain no newline of
their own). -/
theorem C4_report_writer (renderF : Rat → List Char) (renderI : Int → List Char)
    (r : Report) (h : ∀ l ∈ reportTexts renderF renderI r, '\n' ∉ l) :
    outPath = "../out.txt" ∧
    (reportTexts renderF renderI r).length = 10 ∧
    splitNl (fileContent renderF renderI r) =
      reportTexts renderF renderI r ++ [[]] ∧
    reportTexts renderF renderI r =
      [r.txid.data, r.inputAddress.data, renderF r.inputAmount,
       r.recipientAddress.data, renderF r.recipientAmount,
       r.changeAddress.data, renderF r.changeAmount,
       renderF r.fee, renderI r.blockheight, r.blockhash.data] :=
  ⟨rfl, rfl, splitNl_flatten _ h, rfl⟩

/-- Witness for C4 on a concrete report and newline-free renderers. -/
theorem C4_witness :
    splitNl (fileContent sampleRenderF sampleRenderI sampleReport) =
      reportTexts sampleRenderF sampleRenderI sampleReport ++ [[]] ∧
    (reportTexts sampleRenderF sampleRenderI sampleReport).length = 10 :=
  ⟨(C4_report_writer sampleRenderF sampleRenderI sampleReport (by decide)).2.2.1,
   (C4_report_writer sampleRenderF sampleRenderI sampleReport (by decide)).2.1⟩

/-- C5: for each wallet name, a createwallet failure whose error text
contains "already exists" leads to a loadwallet call for that wallet and is
not fatal (nor is any outcome of the load, whose result the code discards -
the run is the same under any load stub); a createwallet failure with any
other error text makes the run abort before the funding stage mines any
block. -/
theorem C5_wallet_setup (create load load2 : String → CallResult)
    (w e : String) :
    (create w = .err e → strContains e "already exists" = true →
      ensureWallet create load w = some [.createCall w, .loadCall w]) ∧
    ensureWallet create load w = ensureWallet create load2 w ∧
    (∀ addr chain, (w = "Miner" ∨ w = "Trader") → create w = .err e →
      strContains e "already exists" = false →
      runSetup create load addr chain = none) := by
  refine ⟨?_, ?_, ?_⟩
  · intro hc hs
    unfold ensureWallet
    rw [hc]
    simp [hs]
  · unfold ensureWallet
    cases create w <;> rfl
  · intro addr chain hw hc hs
    have hnone : ensureWallet create load w = none := by
      unfold ensureWallet
      rw [hc]
      simp [hs]
    unfold runSetup ensureWallets
    rcases hw with rfl | rfl
    · rw [hnone]
      rfl
    · cases hm : ensureWallet create load "Miner" with
      | none => rfl
      | some a1 => rw [hnone]; rfl

/-- Witness for C5: an "already exists" failure recovers with a load call;
an unrelated failure aborts the run before any block is mined. -/
theorem C5_witness :
    ensureWallet createAE loadOk "Miner" =
      some [.createCall "Miner", .loadCall "Miner"] ∧
    runSetup createBad loadOk "mining-addr" [] = none := by
  constructor
  · exact (C5_wallet_setup createAE loadOk loadOk "Miner"
      "Wallet file already exists.").1 rfl (by decide)
  · exact (C5_wallet_setup createBad loadOk loadOk "Miner"
      "connection refused").2.2 "mining-addr" [] (Or.inl rfl) rfl (by decide)

/-- C6: when the confirmed transaction record lacks a usable fee, block
height or block hash, the report carries the defaults 0.0, 0 and "unknown"
respectively, and when the funding output's value is unavailable the input
amount defaults to 0.0 - in all four cases extraction still returns a report
(no abort), provided the structural accesses succeed. -/
theorem C6_scalar_defaults (oracle : String → Json) (txid trader : String)
    (vin : List Json) (vin0 : Json) (itxid : String) (ivout : Nat)
    (ivouts : List Json) (ivobj : Json) (vout : List Json)
    (h1 : (((oracle txid).idx "decoded").idx "vin").asArr = some vin)
    (h2 : vin.get? 0 = some vin0)
    (h3 : (vin0.idx "txid").asStr = some itxid)
    (h4 : (vin0.idx "vout").asU64 = some ivout)
    (h5 : (((oracle itxid).idx "decoded").idx "vout").asArr = some ivouts)
    (h6 : ivouts.get? ivout = some ivobj)
    (h7 : (((oracle txid).idx "decoded").idx "vout").asArr = some vout) :
    ∃ r, extractReport oracle txid trader = some r ∧
      (((oracle txid).idx "fee").asF64 = none → r.fee = 0) ∧
      (((oracle txid).idx "blockheight").asI64 = none → r.blockheight = 0) ∧
      (((oracle txid).idx "blockhash").asStr = none → r.blockhash = "unknown") ∧
      ((ivobj.idx "value").asF64 = none → r.inputAmount = 0) := by
  refine ⟨buildReport (oracle txid) ivobj vout txid trader,
    extractReport_eq_some oracle txid trader vin vin0 itxid ivout ivouts ivobj
      vout h1 h2 h3 h4 h5 h6 h7, ?_, ?_, ?_, ?_⟩
  · intro h; simp [buildReport, h]
  · intro h; simp [buildReport, h]
  · intro h; simp [buildReport, h]
  · intro h; simp [buildReport, h]

/-- Witness for C6: a response with the structural fields but no fee, block
height, block hash, and a value-less funding output. -/
theorem C6_witness :
    ∃ r, extractReport bareOracle "bare-txid" "trader-addr" = some r ∧
      r.fee = 0 ∧ r.blockheight = 0 ∧ r.blockhash = "unknown" ∧
      r.inputAmount = 0 := by
  obtain ⟨r, hr, hf, hh, hb, hv⟩ := C6_scalar_defaults bareOracle "bare-txid"
    "trader-addr" [Json.obj [("txid", .str "prevtx0"), ("vout", .num 0)]]
    (Json.obj [("txid", .str "prevtx0"), ("vout", .num 0)]) "prevtx0" 0
    [Json.obj []] (Json.obj []) [] rfl rfl rfl rfl rfl rfl rfl
  exact ⟨r, hr, hf rfl, hh rfl, hb rfl, hv rfl⟩

/-- C8: the extraction stage is deterministic - it depends only on the RPC
responses for the confirmed txid and for the funding txid derived from that
response, so two oracles that agree on those two queries (identical
responses, no new mining) yield identical reports. -/
theorem C8_extraction_deterministic (o1 o2 : String → Json)
    (txid trader : String) (h : o1 txid = o2 txid)
    (hf : ∀ i, fundingTxid o1 txid = some i → o1 i = o2 i) :
    extractReport o1 txid trader = extractReport o2 txid trader := by
  simp only [extractReport]
  rw [h]
  cases hv : (((o2 txid).idx "decoded").idx "vin").asArr with
  | none => rfl
  | some vin =>
    simp only [Option.some_bind]
    cases h0 : vin.get? 0 with
    | none => rfl
    | some vin0 =>
      simp only [Option.some_bind]
      cases ht : (vin0.idx "txid").asStr with
      | none => rfl
      | some itxid =>
        simp only [Option.some_bind]
        cases hu : (vin0.idx "vout").asU64 with
        | none => rfl
        | some ivout =>
          simp only [Option.some_bind]
          have hq : fundingTxid o1 txid = some itxid := by
            unfold fundingTxid
            rw [h, hv]
            simp only [Option.some_bind, h0, ht]
          rw [hf itxid hq]

/-- Witness for C8: two oracles differing only on a txid the extraction never
queries produce the same report. -/
theorem C8_witness :
    extractReport goodOracle "c8-txid" "trader-addr" =
      extractReport goodOracle2 "c8-txid" "trader-addr" := by
  refine C8_extraction_deterministic goodOracle goodOracle2 "c8-txid"
    "trader-addr" rfl ?_
  intro i hi
  have h2 : fundingTxid goodOracle "c8-txid" = some "prevtx" := rfl
  rw [h2] at hi
  rw [(Option.some.inj hi).symm]
  rfl

/-- C9: the funding stage issues one block-generation call for the fixed
count of 103 blocks to the mining address (at least 100 for maturity plus
the implementation's margin of 3), and afterwards the miner wallet's
reported balance - under the spec-modelled coinbase-maturity rule - is
strictly positive. -/
theorem C9_funding_blocks (addr : String) :
    fundingStage addr [] = List.replicate 103 addr ∧
    (fundingStage addr []).length = 103 ∧
    100 + 3 ≤ 103 ∧
    0 < minerBalance (fundingStage addr []) addr := by
  have hrep : fundingStage addr [] = List.replicate 103 addr := by
    simp [fundingStage, generateToAddress]
  refine ⟨hrep, by simp [hrep], by norm_num, ?_⟩
  rw [hrep]
  unfold minerBalance
  rw [List.length_replicate]
  have hc : ∀ i ∈ List.range 103,
      (decide ((List.replicate 103 addr).get? i = some addr) &&
        decide (i + coinbaseMaturity < 103)) =
      decide (i + coinbaseMaturity < 103) := by
    intro i hi
    have h1 : i < 103 := List.mem_range.mp hi
    rw [List.get?_eq_getElem?, List.getElem?_replicate_of_lt h1]
    simp
  rw [List.filter_congr hc]
  have h3 : ((List.range 103).filter fun i =>
      decide (i + coinbaseMaturity < 103)).length = 3 := by decide
  rw [h3]
  norm_num [blockSubsidy]

/-- C10: when no output carries a string address equal to the trader address
the recipient slot keeps its initial values - the empty string (not
"unknown") and 0.0 - and those are what reach lines 4 and 5 of the report;
likewise for the change slot and lines 6 and 7 when no output carries a
string address different from the trader address. -/
theorem C10_empty_sentinels (oracle : String → Json) (txid trader : String)
    (vin : List Json) (vin0 : Json) (itxid : String) (ivout : Nat)
    (ivouts : List Json) (ivobj : Json) (vout : List Json)
    (h1 : (((oracle txid).idx "decoded").idx "vin").asArr = some vin)
    (h2 : vin.get? 0 = some vin0)
    (h3 : (vin0.idx "txid").asStr = some itxid)
    (h4 : (vin0.idx "vout").asU64 = some ivout)
    (h5 : (((oracle itxid).idx "decoded").idx "vout").asArr = some ivouts)
    (h6 : ivouts.get? ivout = some ivobj)
    (h7 : (((oracle txid).idx "decoded").idx "vout").asArr = some vout) :
    ∃ r, extractReport oracle txid trader = some r ∧
      ((∀ o ∈ vout,
          ¬ ((o.idx "scriptPubKey").get "address").bind Json.asStr = some trader) →
        r.recipientAddress = "" ∧ r.recipientAmount = 0 ∧
        ∀ rf ri, (reportTexts rf ri r).get? 3 = some []) ∧
      ((∀ o ∈ vout, ∀ a,
          ((o.idx "scriptPubKey").get "address").bind Json.asStr = some a →
          a = trader) →
        r.changeAddress = "" ∧ r.changeAmount = 0 ∧
        ∀ rf ri, (reportTexts rf ri r).get? 5 = some []) := by
  have hca : classifyOutputs trader vout =
      { traderAddr := ((vout.reverse.findSome? (recMatch trader)).getD ("", 0)).1
        traderAmt := ((vout.reverse.findSome? (recMatch trader)).getD ("", 0)).2
        changeAddr := ((vout.reverse.findSome? (chgMatch trader)).getD ("", 0)).1
        changeAmt := ((vout.reverse.findSome? (chgMatch trader)).getD ("", 0)).2 } :=
    classifyOutputs_foldl trader vout ⟨"", 0, "", 0⟩
  refine ⟨buildReport (oracle txid) ivobj vout txid trader,
    extractReport_eq_some oracle txid trader vin vin0 itxid ivout ivouts ivobj
      vout h1 h2 h3 h4 h5 h6 h7, ?_, ?_⟩
  · intro hnone
    have hrec : vout.reverse.findSome? (recMatch trader) = none := by
      rw [List.findSome?_eq_none_iff]
      intro o ho
      have hno := hnone o (List.mem_reverse.mp ho)
      unfold recMatch
      cases hv : (o.get "value").bind Json.asF64 with
      | none => rfl
      | some v =>
        cases ha : ((o.idx "scriptPubKey").get "address").bind Json.asStr with
        | none => rfl
        | some a =>
          have hne : ¬ a = trader := fun e => hno (e ▸ ha)
          simp [hne]
    have hra : (classifyOutputs trader vout).traderAddr = "" := by
      rw [hca, hrec]
      rfl
    have ham : (classifyOutputs trader vout).traderAmt = 0 := by
      rw [hca, hrec]
      rfl
    refine ⟨hra, ham, ?_⟩
    intro rf ri
    have hg : (reportTexts rf ri
        (buildReport (oracle txid) ivobj vout txid trader)).get? 3 =
        some ((classifyOutputs trader vout).traderAddr.data) := rfl
    rw [hg, hra]
  · intro hall
    have hchg : vout.reverse.findSome? (chgMatch trader) = none := by
      rw [List.findSome?_eq_none_iff]
      intro o ho
      have hao := hall o (List.mem_reverse.mp ho)
      unfold chgMatch
      cases hv : (o.get "value").bind Json.asF64 with
      | none => rfl
      | some v =>
        cases ha : ((o.idx "scriptPubKey").get "address").bind Json.asStr with
        | none => rfl
        | some a =>
          have heq : a = trader := hao a ha
          simp [heq]
    have hcaddr : (classifyOutputs trader vout).changeAddr = "" := by
      rw [hca, hchg]
      rfl
    have hcamt : (classifyOutputs trader vout).changeAmt = 0 := by
      rw [hca, hchg]
      rfl
    refine ⟨hcaddr, hcamt, ?_⟩
    intro rf ri
    have hg : (reportTexts rf ri
        (buildReport (oracle txid) ivobj vout txid trader)).get? 5 =
        some ((classifyOutputs trader vout).changeAddr.data) := rfl
    rw [hg, hcaddr]

/-- Witness for C10: a confirmed transaction with no outputs at all leaves
both address slots as the empty string and both amounts at 0. -/
theorem C10_witness :
    ∃ r, extractReport bareOracle "c10-txid" "trader-addr" = some r ∧
      r.recipientAddress = "" ∧ r.recipientAmount = 0 ∧
      r.changeAddress = "" ∧ r.changeAmount = 0 := by
  obtain ⟨r, hr, hrec, hchg⟩ := C10_empty_sentinels bareOracle "c10-txid"
    "trader-addr" [Json.obj [("txid", .str "prevtx0"), ("vout", .num 0)]]
    (Json.obj [("txid", .str "prevtx0"), ("vout", .num 0)]) "prevtx0" 0
    [Json.obj []] (Json.obj []) [] rfl rfl rfl rfl rfl rfl rfl
  have hr1 := hrec fun o ho => absurd ho (List.not_mem_nil o)
  have hr2 := hchg fun o ho => absurd ho (List.not_mem_nil o)
  exact ⟨r, hr, hr1.1, hr1.2.1, hr2.1, hr2.2.1⟩
